import Mathlib

/-!
Shallow embedding of the parsing core of the usbip-manager extension
(`src/extension.ts`): the two line-oriented parsers `parseUsbipOutput`
and `parseImportedUsbDevices`, together with the aggregation loop of
`listDevices`.  The JavaScript regular expressions are embedded by a
small backtracking matcher (`RE.matchC`) that implements exactly the
constructs those patterns use: literal characters, character classes
with greedy `*`, `+` and `{n}` quantifiers, capture groups and the
end-of-input anchor.  Greedy quantifiers backtrack from the longest
candidate, reproducing ECMAScript matching order, so the capture
assignment agrees with `String.prototype.match` on these patterns.
-/

namespace UsbipManager

/-- ECMAScript `\s` restricted to the characters the tool can emit:
ASCII whitespace plus no-break space. -/
def isJsWhitespace (c : Char) : Bool :=
  c = ' ' || c = '\t' || c = '\n' || c = '\r' ||
  c = Char.ofNat 11 || c = Char.ofNat 12 || c = Char.ofNat 160

/-- ECMAScript `\d`. -/
def isAsciiDigit (c : Char) : Bool :=
  '0' ≤ c && c ≤ '9'

/-- The character class `[\da-fA-F]` (and `[\dA-Fa-f]`). -/
def isHexDigit (c : Char) : Bool :=
  isAsciiDigit c || ('a' ≤ c && c ≤ 'f') || ('A' ≤ c && c ≤ 'F')

/-- ECMAScript `.` (without the `s` flag): any character that is not a
line terminator. -/
def isDotChar (c : Char) : Bool :=
  !(c = '\n' || c = '\r' || c.val = 0x2028 || c.val = 0x2029)

/-- ECMAScript `\S`. -/
def isNonWhitespace (c : Char) : Bool :=
  !isJsWhitespace c

/-- Capture environment: group index to captured characters. -/
def Caps : Type := Nat → Option (List Char)

def Caps.empty : Caps := fun _ => none

def Caps.set (cs : Caps) (i : Nat) (v : List Char) : Caps :=
  fun j => if j = i then some v else cs j

/-- Regular-expression syntax actually used by the source patterns:
sequencing, literal strings, character classes under greedy `*`, `+`
and `{n}` quantifiers, numbered capture groups, and the `$` anchor.
(`^` is implicit: matching always starts at the beginning of the line.) -/
inductive RE : Type where
  | eps : RE
  | ch (p : Char → Bool) : RE
  | str (lit : List Char) : RE
  | seq (a b : RE) : RE
  | star (p : Char → Bool) : RE
  | plus (p : Char → Bool) : RE
  | rep (p : Char → Bool) (n : Nat) : RE
  | group (i : Nat) (r : RE) : RE
  | eos : RE

/-- Greedy star over a character class, in continuation-passing style:
consume as many `p`-characters as possible, backtracking one at a time. -/
def starM (p : Char → Bool) (k : List Char → Option Caps) :
    List Char → Option Caps
  | [] => k []
  | c :: cs =>
    if p c then
      match starM p k cs with
      | some r => some r
      | none => k (c :: cs)
    else k (c :: cs)

/-- Exactly `n` characters of class `p` (the `{n}` quantifier). -/
def repM (p : Char → Bool) (k : List Char → Option Caps) :
    Nat → List Char → Option Caps
  | 0, s => k s
  | _ + 1, [] => none
  | n + 1, c :: cs => if p c then repM p k n cs else none

/-- Backtracking matcher in continuation-passing style.  `matchC r s cs k`
tries to match `r` against a prefix of `s`, extending captures `cs`, and
calls `k` on the rest; greedy quantifiers try the longest candidate
first, as in ECMAScript. -/
def RE.matchC : RE → List Char → Caps → (List Char → Caps → Option Caps) →
    Option Caps
  | .eps, s, cs, k => k s cs
  | .ch _, [], _, _ => none
  | .ch p, c :: rest, cs, k => if p c then k rest cs else none
  | .str lit, s, cs, k =>
    if lit.isPrefixOf s then k (s.drop lit.length) cs else none
  | .seq a b, s, cs, k =>
    a.matchC s cs (fun s1 cs1 => b.matchC s1 cs1 k)
  | .star p, s, cs, k => starM p (fun s1 => k s1 cs) s
  | .plus _, [], _, _ => none
  | .plus p, c :: rest, cs, k =>
    if p c then starM p (fun s1 => k s1 cs) rest else none
  | .rep p n, s, cs, k => repM p (fun s1 => k s1 cs) n s
  | .group i r, s, cs, k =>
    r.matchC s cs (fun s1 cs1 =>
      k s1 (cs1.set i (s.take (s.length - s1.length))))
  | .eos, s, cs, k => if s.isEmpty then k s cs else none

/-- Sequence a list of regex fragments. -/
def cat : List RE → RE
  | [] => .eps
  | [r] => r
  | r :: rs => .seq r (cat rs)

def lit (s : String) : RE := .str s.data

/-- Run a `^`-anchored pattern against one line, as
`line.match(re)` does for the start-anchored source regexes:
the match must begin at position 0 and may end anywhere
(unless the pattern itself ends with `eos`). -/
def reMatch (r : RE) (line : String) : Option Caps :=
  r.matchC line.data Caps.empty (fun _ cs => some cs)

/-- Read group `i`; an unset group reads as the empty string
(every group of the source patterns participates in any match). -/
def getCap (cs : Caps) (i : Nat) : String :=
  String.mk ((cs i).getD [])

/-! ## The regular expressions of the source -/

/-- `/^(\s*)(\S+)\s+:\s+(.*)\s+:\s+(.*)\s+\(([\da-fA-F]{4}:[\da-fA-F]{4})\)/` -/
def busLineRegex : RE :=
  cat [.group 1 (.star isJsWhitespace), .group 2 (.plus isNonWhitespace),
       .plus isJsWhitespace, lit ":", .plus isJsWhitespace,
       .group 3 (.star isDotChar), .plus isJsWhitespace, lit ":",
       .plus isJsWhitespace, .group 4 (.star isDotChar),
       .plus isJsWhitespace, lit "(",
       .group 5 (cat [.rep isHexDigit 4, lit ":", .rep isHexDigit 4]),
       lit ")"]

/-- `/^\s*:\s+(\/.*)/` -/
def pathRegex : RE :=
  cat [.star isJsWhitespace, lit ":", .plus isJsWhitespace,
       .group 1 (.seq (lit "/") (.star isDotChar))]

/-- The three-part hex class code `[\dA-Fa-f]{2}\/[\dA-Fa-f]{2}\/[\dA-Fa-f]{2}`. -/
def classCodeRE : RE :=
  cat [.rep isHexDigit 2, lit "/", .rep isHexDigit 2, lit "/",
       .rep isHexDigit 2]

/-- `/^\s*:\s+\((.*)\)\s+\(([\dA-Fa-f]{2}\/[\dA-Fa-f]{2}\/[\dA-Fa-f]{2})\)/` -/
def classRegex : RE :=
  cat [.star isJsWhitespace, lit ":", .plus isJsWhitespace, lit "(",
       .group 1 (.star isDotChar), lit ")", .plus isJsWhitespace, lit "(",
       .group 2 classCodeRE, lit ")"]

/-- `/^\s*:\s+(\d+)\s+-\s+(.*)\s+\(([\dA-Fa-f]{2}\/[\dA-Fa-f]{2}\/[\dA-Fa-f]{2})\)/` -/
def interfaceRegex : RE :=
  cat [.star isJsWhitespace, lit ":", .plus isJsWhitespace,
       .group 1 (.plus isAsciiDigit), .plus isJsWhitespace, lit "-",
       .plus isJsWhitespace, .group 2 (.star isDotChar),
       .plus isJsWhitespace, lit "(", .group 3 classCodeRE, lit ")"]

/-- `/^Port (\d+): device in use at (.+)$/` -/
def portLineRegex : RE :=
  cat [lit "Port ", .group 1 (.plus isAsciiDigit),
       lit ": device in use at ", .group 2 (.plus isDotChar), .eos]

/-- `/^\s+(.*)\s+:\s+(.*)\s+\(([\da-fA-F]{4}):([\da-fA-F]{4})\)/` -/
def vendorLineRegex : RE :=
  cat [.plus isJsWhitespace, .group 1 (.star isDotChar),
       .plus isJsWhitespace, lit ":", .plus isJsWhitespace,
       .group 2 (.star isDotChar), .plus isJsWhitespace, lit "(",
       .group 3 (.rep isHexDigit 4), lit ":",
       .group 4 (.rep isHexDigit 4), lit ")"]

/-- `/^\s+-> usbip:\/\/(.+)/` -/
def urlRegex : RE :=
  cat [.plus isJsWhitespace, lit "-> usbip://", .group 1 (.plus isDotChar)]

/-- `/^\s+-> remote bus\/dev (\d{3})\/(\d{3})/` -/
def remoteBusDevRegex : RE :=
  cat [.plus isJsWhitespace, lit "-> remote bus/dev ",
       .group 1 (.rep isAsciiDigit 3), lit "/",
       .group 2 (.rep isAsciiDigit 3)]

/-! ## Line splitting -/

/-- `output.split(/\r?\n/)` on the character list: a separator is either
`"\r\n"` or `"\n"`; a lone carriage return is ordinary text. -/
def splitLinesAux : List Char → List (List Char)
  | [] => [[]]
  | '\r' :: '\n' :: rest => [] :: splitLinesAux rest
  | '\n' :: rest => [] :: splitLinesAux rest
  | c :: rest =>
    match splitLinesAux rest with
    | [] => [[c]]
    | l :: ls => (c :: l) :: ls

def jsSplitLines (s : String) : List String :=
  (splitLinesAux s.data).map String.mk

/-! ## Data model -/

structure UsbInterface where
  index : Nat
  description : String
  classCode : String
deriving Repr, DecidableEq

structure UsbDevice where
  client : String
  busId : String
  vendor : String
  product : String
  path : String
  deviceClass : String
  interfaces : List UsbInterface
deriving Repr, DecidableEq

/-- The attached-device record.  The source builds it as a
`Partial<ImportedUsbDevice>` and casts on emission, so every field is
optional in the records the parser actually returns. -/
structure ImportedUsbDevice where
  port : Option String := none
  speed : Option String := none
  vendor : Option String := none
  product : Option String := none
  vendorId : Option String := none
  productId : Option String := none
  remoteUrl : Option String := none
  remoteBus : Option String := none
  remoteDev : Option String := none
deriving Repr, DecidableEq

def emptyImported : ImportedUsbDevice := {}

/-! ## Export-listing parser (`parseUsbipOutput`) -/

/-- Captures of a device-header line, in group order
`(leading-ws, busId, vendor, product, id)`. -/
def busMatch (line : String) : Option (String × String × String × String × String) :=
  (reMatch busLineRegex line).map
    (fun cs => (getCap cs 1, getCap cs 2, getCap cs 3, getCap cs 4, getCap cs 5))

def pathMatch (line : String) : Option String :=
  (reMatch pathRegex line).map (fun cs => getCap cs 1)

def classMatch (line : String) : Option (String × String) :=
  (reMatch classRegex line).map (fun cs => (getCap cs 1, getCap cs 2))

def intfMatch (line : String) : Option (String × String × String) :=
  (reMatch interfaceRegex line).map
    (fun cs => (getCap cs 1, getCap cs 2, getCap cs 3))

/-- `Number(s)` on a `\d+` capture: the decimal value. -/
def digitsToNat (s : String) : Nat :=
  s.data.foldl (fun n c => 10 * n + (c.toNat - 48)) 0

/-- One iteration of the `for (const line of lines)` loop of
`parseUsbipOutput`: state is `(devices, currentDevice)`.  A header line
flushes the open device (if any) and opens a fresh one; each
continuation pattern acts only when a device is open, and a line is
tried against the later patterns exactly when the earlier branches did
not `continue`. -/
def exportStep (client : String)
    (st : List UsbDevice × Option UsbDevice) (line : String) :
    List UsbDevice × Option UsbDevice :=
  let devices := st.1
  let cur := st.2
  match busMatch line with
  | some (_, busId, vendor, product, _) =>
    (devices ++ cur.toList,
     some { client := client, busId := busId, vendor := vendor,
            product := product, path := "", deviceClass := "",
            interfaces := [] })
  | none =>
    match pathMatch line, cur with
    | some p, some d => (devices, some { d with path := p })
    | _, _ =>
      match classMatch line, cur with
      | some (desc, code), some d =>
        (devices, some { d with deviceClass := desc ++ " (" ++ code ++ ")" })
      | _, _ =>
        match intfMatch line, cur with
        | some (idx, desc, code), some d =>
          (devices, some { d with interfaces :=
            d.interfaces ++ [{ index := digitsToNat idx,
                               description := desc, classCode := code }] })
        | _, _ => (devices, cur)

def exportRun (client : String) (st : List UsbDevice × Option UsbDevice)
    (lines : List String) : List UsbDevice × Option UsbDevice :=
  lines.foldl (exportStep client) st

/-- The final flush: `if (currentDevice) devices.push(currentDevice)`. -/
def exportFinish (st : List UsbDevice × Option UsbDevice) : List UsbDevice :=
  st.1 ++ st.2.toList

def parseUsbipLines (client : String) (lines : List String) : List UsbDevice :=
  exportFinish (exportRun client ([], none) lines)

def parseUsbipOutput (output client : String) : List UsbDevice :=
  parseUsbipLines client (jsSplitLines output)

/-! ## Attached-port parser (`parseImportedUsbDevices`) -/

/-- Captures of a port-header line: `(digits, speed)`. -/
def portMatch (line : String) : Option (String × String) :=
  (reMatch portLineRegex line).map (fun cs => (getCap cs 1, getCap cs 2))

def vendorMatch (line : String) : Option (String × String × String × String) :=
  (reMatch vendorLineRegex line).map
    (fun cs => (getCap cs 1, getCap cs 2, getCap cs 3, getCap cs 4))

def urlMatch (line : String) : Option String :=
  (reMatch urlRegex line).map (fun cs => getCap cs 1)

def busDevMatch (line : String) : Option (String × String) :=
  (reMatch remoteBusDevRegex line).map (fun cs => (getCap cs 1, getCap cs 2))

/-- JavaScript truthiness of `currentDevice.port`: present and non-empty. -/
def strTruthy : Option String → Bool
  | none => false
  | some s => !(s = "")

/-- The call `s.padStart(2, "0")`: pad on the left to length 2; a longer string
is returned unchanged (never truncated). -/
def padStart2 (s : String) : String :=
  if s.length ≥ 2 then s
  else String.mk (List.replicate (2 - s.length) '0') ++ s

/-- One iteration of the loop of `parseImportedUsbDevices`: state is
`(devices, currentDevice)` where `currentDevice` is the partially
filled record. -/
def importedStep (st : List ImportedUsbDevice × ImportedUsbDevice)
    (line : String) : List ImportedUsbDevice × ImportedUsbDevice :=
  let devices := st.1
  let cur := st.2
  match portMatch line with
  | some (digits, sp) =>
    let flushed :=
      if strTruthy cur.port then (devices ++ [cur], emptyImported)
      else (devices, cur)
    (flushed.1, { flushed.2 with port := some (padStart2 digits),
                                 speed := some sp })
  | none =>
    match vendorMatch line with
    | some (v, p, vid, pid) =>
      (devices, { cur with vendor := some v, product := some p,
                           vendorId := some vid, productId := some pid })
    | none =>
      match urlMatch line with
      | some u => (devices, { cur with remoteUrl := some ("usbip://" ++ u) })
      | none =>
        match busDevMatch line with
        | some (b, d) =>
          (devices, { cur with remoteBus := some b, remoteDev := some d })
        | none => (devices, cur)

def importedRun (st : List ImportedUsbDevice × ImportedUsbDevice)
    (lines : List String) : List ImportedUsbDevice × ImportedUsbDevice :=
  lines.foldl importedStep st

/-- The final flush: `if (currentDevice.port) devices.push(...)`. -/
def importedFinish (st : List ImportedUsbDevice × ImportedUsbDevice) :
    List ImportedUsbDevice :=
  if strTruthy st.2.port then st.1 ++ [st.2] else st.1

def parseImportedLines (lines : List String) : List ImportedUsbDevice :=
  importedFinish (importedRun ([], emptyImported) lines)

def parseImportedUsbDevices (output : String) : List ImportedUsbDevice :=
  parseImportedLines (jsSplitLines output)

/-! ## Aggregation loop of `listDevices` -/

/-- `output.trim()`: strip leading and trailing ECMAScript whitespace. -/
def jsTrim (s : String) : String :=
  String.mk (((s.data.dropWhile isJsWhitespace).reverse.dropWhile
    isJsWhitespace).reverse)

/-- The `for (const client of clients)` loop of `listDevices`: each
host either yields raw text (`Except.ok`) or fails (`Except.error`); a
succeeding host has its trimmed output parsed tagged with that host and
appended, a failing host is skipped, and no error escapes the loop. -/
def listStep (acc : List UsbDevice) (cr : String × Except String String) :
    List UsbDevice :=
  match cr.2 with
  | .ok output => acc ++ parseUsbipOutput (jsTrim output) cr.1
  | .error _ => acc

def listDevicesModel (results : List (String × Except String String)) :
    List UsbDevice :=
  results.foldl listStep []

/-- Per-host contribution to the aggregate. -/
def hostDevices (cr : String × Except String String) : List UsbDevice :=
  match cr.2 with
  | .ok output => parseUsbipOutput (jsTrim output) cr.1
  | .error _ => []

/-! ## Concrete fixtures from section 8 of the specification -/

/-- The export listing of spec scenario A, exactly as printed there. -/
def scenarioAText : String :=
  "    1-1: Logitech USB Optical Mouse : (046d:c077)\n        : /sys/devices/.../1-1\n        : (Human Interface Device) (03/01/02)\n        :    0 - Boot Interface Subclass (03/01/02)"

/-- The attached-port listing of spec scenario B, exactly as printed there. -/
def scenarioBText : String :=
  "Port 00: device in use at High Speed(480Mbps)\n       SanDisk : Cruzer Blade (0781:5567)\n      -> usbip://192.168.1.101:3240/1-2\n     -> remote bus/dev 002/003"

/-- The record scenario B should produce. -/
def scenarioBRecord : ImportedUsbDevice :=
  { port := some "00", speed := some "High Speed(480Mbps)",
    vendor := some "SanDisk", product := some "Cruzer Blade",
    vendorId := some "0781", productId := some "5567",
    remoteUrl := some "usbip://192.168.1.101:3240/1-2",
    remoteBus := some "002", remoteDev := some "003" }

/-! ## General lemmas about the two parsing loops -/

theorem optionToListLen {α : Type} {o1 o2 : Option α}
    (h : o1.isSome = o2.isSome) : o1.toList.length = o2.toList.length := by
  cases o1 <;> cases o2 <;> simp_all

/-- A non-header line never emits a device and never changes whether an
accumulator is open. -/
theorem exportStep_nonheader (client : String) (devs : List UsbDevice)
    (cur : Option UsbDevice) (line : String) (h : busMatch line = none) :
    (exportStep client (devs, cur) line).1 = devs ∧
    ((exportStep client (devs, cur) line).2).isSome = cur.isSome := by
  rcases hp : pathMatch line with _ | p <;>
    rcases hc : classMatch line with _ | ⟨desc, code⟩ <;>
      rcases hi : intfMatch line with _ | ⟨i, de, co⟩ <;>
        cases cur <;> simp [exportStep, h, hp, hc, hi]

/-- With no open accumulator, a non-header line is a complete no-op. -/
theorem exportStep_nomatch_nocur (client : String) (devs : List UsbDevice)
    (line : String) (h : busMatch line = none) :
    exportStep client (devs, none) line = (devs, none) := by
  rcases hp : pathMatch line with _ | p <;>
    rcases hc : classMatch line with _ | ⟨desc, code⟩ <;>
      rcases hi : intfMatch line with _ | ⟨i, de, co⟩ <;>
        simp [exportStep, h, hp, hc, hi]

/-- Header-free prefixes leave the initial state untouched. -/
theorem exportRun_nomatch (client : String) :
    ∀ (u : List String), (∀ l ∈ u, busMatch l = none) →
      exportRun client ([], none) u = ([], none) := by
  intro u
  induction u with
  | nil => intro _; rfl
  | cons l rest ih =>
    intro h
    have hl : busMatch l = none := h l (List.mem_cons_self l rest)
    have hrest : ∀ l2 ∈ rest, busMatch l2 = none :=
      fun l2 hm => h l2 (List.mem_cons_of_mem l hm)
    calc exportRun client ([], none) (l :: rest)
        = exportRun client (exportStep client ([], none) l) rest := rfl
      _ = exportRun client ([], none) rest := by
            rw [exportStep_nomatch_nocur client [] l hl]
      _ = ([], none) := ih hrest

/-- The device count of the export loop: initial material plus one
device per header-matching line. -/
theorem exportRun_length (client : String) :
    ∀ (lines : List String) (devs : List UsbDevice) (cur : Option UsbDevice),
      (exportFinish (exportRun client (devs, cur) lines)).length =
        devs.length + cur.toList.length +
          lines.countP (fun l => (busMatch l).isSome) := by
  intro lines
  induction lines with
  | nil => intro devs cur; simp [exportRun, exportFinish]
  | cons l rest ih =>
    intro devs cur
    have hstep : exportRun client (devs, cur) (l :: rest) =
        exportRun client (exportStep client (devs, cur) l) rest := rfl
    rw [hstep]
    rcases hb : busMatch l with _ | ⟨w, b, v, p, i⟩
    · obtain ⟨h1, h2⟩ := exportStep_nonheader client devs cur l hb
      rcases hs : exportStep client (devs, cur) l with ⟨devs2, cur2⟩
      rw [hs] at h1 h2
      simp only at h1 h2
      rw [ih devs2 cur2, h1, optionToListLen h2, List.countP_cons]
      simp [hb]
    · have hred : exportStep client (devs, cur) l =
          (devs ++ cur.toList,
           some { client := client, busId := b, vendor := v, product := p,
                  path := "", deviceClass := "", interfaces := [] }) := by
        simp [exportStep, hb]
      rw [hred, ih]
      simp [List.countP_cons, hb]
      omega

/-- The devices already emitted are a passive prefix of the state. -/
theorem importedStep_frame (devs : List ImportedUsbDevice)
    (cur : ImportedUsbDevice) (l : String) :
    importedStep (devs, cur) l =
      (devs ++ (importedStep ([], cur) l).1, (importedStep ([], cur) l).2) := by
  rcases hp : portMatch l with _ | ⟨dg, sp⟩ <;>
    rcases hv : vendorMatch l with _ | ⟨v, pr, vid, pid⟩ <;>
      rcases hu : urlMatch l with _ | u <;>
        rcases hd : busDevMatch l with _ | ⟨rb, rd⟩ <;>
          cases ht : strTruthy cur.port <;>
            simp [importedStep, hp, hv, hu, hd, ht]

theorem importedRun_frame :
    ∀ (lines : List String) (devs : List ImportedUsbDevice)
      (cur : ImportedUsbDevice),
      importedRun (devs, cur) lines =
        (devs ++ (importedRun ([], cur) lines).1,
         (importedRun ([], cur) lines).2) := by
  intro lines
  induction lines with
  | nil => intro devs cur; simp [importedRun]
  | cons l rest ih =>
    intro devs cur
    have h1 : importedRun (devs, cur) (l :: rest) =
        importedRun (importedStep (devs, cur) l) rest := rfl
    have h2 : importedRun ([], cur) (l :: rest) =
        importedRun (importedStep ([], cur) l) rest := rfl
    rw [h1, h2, importedStep_frame devs cur l]
    rcases hs : importedStep ([], cur) l with ⟨d1, c1⟩
    rw [ih (devs ++ d1) c1, ih d1 c1]
    simp [List.append_assoc]

/-- A non-header line emits nothing and leaves `port` unchanged. -/
theorem importedStep_noport (devs : List ImportedUsbDevice)
    (cur : ImportedUsbDevice) (l : String) (h : portMatch l = none) :
    (importedStep (devs, cur) l).1 = devs ∧
    (importedStep (devs, cur) l).2.port = cur.port := by
  rcases hv : vendorMatch l with _ | ⟨v, pr, vid, pid⟩ <;>
    rcases hu : urlMatch l with _ | u <;>
      rcases hd : busDevMatch l with _ | ⟨rb, rd⟩ <;>
        simp [importedStep, h, hv, hu, hd]

/-- A line matching none of the four patterns is a complete no-op. -/
theorem importedStep_inert (devs : List ImportedUsbDevice)
    (cur : ImportedUsbDevice) (l : String) (h1 : portMatch l = none)
    (h2 : vendorMatch l = none) (h3 : urlMatch l = none)
    (h4 : busDevMatch l = none) : importedStep (devs, cur) l = (devs, cur) := by
  simp [importedStep, h1, h2, h3, h4]

/-- A header-free run emits nothing and never acquires a port. -/
theorem importedRun_noheader :
    ∀ (lines : List String) (cur : ImportedUsbDevice), cur.port = none →
      (∀ l ∈ lines, portMatch l = none) →
      (importedRun ([], cur) lines).1 = [] ∧
      (importedRun ([], cur) lines).2.port = none := by
  intro lines
  induction lines with
  | nil => intro cur h _; exact ⟨rfl, h⟩
  | cons l rest ih =>
    intro cur hport h
    have hl : portMatch l = none := h l (List.mem_cons_self l rest)
    obtain ⟨h1, h2⟩ := importedStep_noport [] cur l hl
    rcases hs : importedStep ([], cur) l with ⟨d1, c1⟩
    rw [hs] at h1 h2
    simp only at h1 h2
    have hrun : importedRun ([], cur) (l :: rest) = importedRun (d1, c1) rest := by
      show importedRun (importedStep ([], cur) l) rest = _
      rw [hs]
    rw [hrun, h1]
    exact ih c1 (h2.trans hport) (fun l2 hm => h l2 (List.mem_cons_of_mem l hm))

theorem strTruthy_isSome {o : Option String} (h : strTruthy o = true) :
    o.isSome = true := by
  cases o <;> simp_all [strTruthy]

/-- One step preserves the port/speed invariant. -/
theorem importedStep_portSpeed (devs : List ImportedUsbDevice)
    (cur : ImportedUsbDevice) (l : String)
    (h1 : ∀ d ∈ devs, d.port.isSome = true ∧ d.speed.isSome = true)
    (h2 : strTruthy cur.port = true → cur.speed.isSome = true) :
    (∀ d ∈ (importedStep (devs, cur) l).1,
        d.port.isSome = true ∧ d.speed.isSome = true) ∧
    (strTruthy ((importedStep (devs, cur) l).2).port = true →
        ((importedStep (devs, cur) l).2).speed.isSome = true) := by
  rcases hp : portMatch l with _ | ⟨dg, sp⟩
  · rcases hv : vendorMatch l with _ | ⟨v, pr, vid, pid⟩ <;>
      rcases hu : urlMatch l with _ | u <;>
        rcases hd : busDevMatch l with _ | ⟨rb, rd⟩ <;>
          simp only [importedStep, hv, hu, hd, hp] <;>
            exact ⟨h1, h2⟩
  · cases ht : strTruthy cur.port
    · constructor
      · simpa [importedStep, hp, ht] using h1
      · simp [importedStep, hp, ht]
    · constructor
      · intro d hd
        simp only [importedStep, hp, ht] at hd
        simp at hd
        rcases hd with hd | rfl
        · exact h1 d hd
        · exact ⟨strTruthy_isSome ht, h2 ht⟩
      · simp [importedStep, hp, ht]

/-- Every record the attached-port parser emits carries a port and a speed. -/
theorem importedRun_portSpeed :
    ∀ (lines : List String) (devs : List ImportedUsbDevice)
      (cur : ImportedUsbDevice),
      (∀ d ∈ devs, d.port.isSome = true ∧ d.speed.isSome = true) →
      (strTruthy cur.port = true → cur.speed.isSome = true) →
      ∀ d ∈ importedFinish (importedRun (devs, cur) lines),
        d.port.isSome = true ∧ d.speed.isSome = true := by
  intro lines
  induction lines with
  | nil =>
    intro devs cur h1 h2 d hd
    cases ht : strTruthy cur.port <;>
      simp only [importedFinish, importedRun, List.foldl_nil, ht] at hd
    · exact h1 d hd
    · simp at hd
      rcases hd with hd | rfl
      · exact h1 d hd
      · exact ⟨strTruthy_isSome ht, h2 ht⟩
  | cons l rest ih =>
    intro devs cur h1 h2
    obtain ⟨g1, g2⟩ := importedStep_portSpeed devs cur l h1 h2
    rcases hs : importedStep (devs, cur) l with ⟨d1, c1⟩
    rw [hs] at g1 g2
    have hrun : importedRun (devs, cur) (l :: rest) = importedRun (d1, c1) rest := by
      show importedRun (importedStep (devs, cur) l) rest = _
      rw [hs]
    rw [hrun]
    exact ih d1 c1 g1 g2

/-- A flushable record survives, unchanged and first, through any tail
whose lines before the next header match no continuation pattern. -/
theorem importedRun_head_of_truthy :
    ∀ (v : List String) (cur : ImportedUsbDevice),
      strTruthy cur.port = true →
      (∀ l ∈ v.takeWhile (fun l2 => (portMatch l2).isNone),
        vendorMatch l = none ∧ urlMatch l = none ∧ busDevMatch l = none) →
      (importedFinish (importedRun ([], cur) v)).head? = some cur := by
  intro v
  induction v with
  | nil =>
    intro cur ht _
    simp [importedRun, importedFinish, ht]
  | cons l rest ih =>
    intro cur ht h
    rcases hp : portMatch l with _ | ⟨dg, sp⟩
    · have htw : List.takeWhile (fun l2 => (portMatch l2).isNone) (l :: rest) =
          l :: List.takeWhile (fun l2 => (portMatch l2).isNone) rest := by
        simp [List.takeWhile, hp]
      have hl : vendorMatch l = none ∧ urlMatch l = none ∧ busDevMatch l = none := by
        apply h l
        rw [htw]
        exact List.mem_cons_self l _
      have hstep : importedStep ([], cur) l = ([], cur) :=
        importedStep_inert [] cur l hp hl.1 hl.2.1 hl.2.2
      have hrun : importedRun ([], cur) (l :: rest) = importedRun ([], cur) rest := by
        show importedRun (importedStep ([], cur) l) rest = _
        rw [hstep]
      rw [hrun]
      apply ih cur ht
      intro l2 hm
      apply h l2
      rw [htw]
      exact List.mem_cons_of_mem l hm
    · have hstep : importedStep ([], cur) l =
          ([cur], { port := some (padStart2 dg), speed := some sp }) := by
        simp [importedStep, hp, ht, emptyImported]
      have hrun : importedRun ([], cur) (l :: rest) =
          importedRun ([cur],
            { port := some (padStart2 dg), speed := some sp }) rest := by
        show importedRun (importedStep ([], cur) l) rest = _
        rw [hstep]
      rw [hrun, importedRun_frame rest [cur]]
      cases ht2 : strTruthy (importedRun ([],
          { port := some (padStart2 dg), speed := some sp }) rest).2.port <;>
        simp [importedFinish, ht2]

/-- The aggregation loop is the concatenation of per-host contributions. -/
theorem listDevicesModel_eq_flatMap :
    ∀ (results : List (String × Except String String)) (acc : List UsbDevice),
      results.foldl listStep acc = acc ++ results.flatMap hostDevices := by
  intro results
  induction results with
  | nil => intro acc; simp
  | cons cr rest ih =>
    intro acc
    rcases cr with ⟨c, r⟩
    cases r <;> simp [listStep, hostDevices, ih, List.append_assoc]

/-! ## Claim theorems -/

/-- C1: evaluation of `parseUsbipOutput` on the scenario-A export
listing of spec section 8 with client 192.168.1.100.  The claim (and
the spec) promise exactly one UsbDevice with busId 1-1; the code
returns no devices at all, because the header line never matches
`busLineRegex`: the regex demands whitespace between the bus id token
and the first colon (the actual header reads `1-1:` with the colon
attached) and a whitespace-separated product field before the
parenthesized id. -/
theorem C1_scenarioA_code_eval :
    parseUsbipOutput scenarioAText "192.168.1.100" = [] := by decide

/-- C2 counterexample: the claim says a three-digit captured port is
truncated to exactly two digits by the pad; on the code the pad never
truncates, so the header `Port 123:` yields the three-character port
123 rather than a two-character string. -/
theorem C2_counterexample :
    (parseImportedUsbDevices "Port 123: device in use at X").map
        (fun d => d.port) = [some "123"] ∧
    ("123" : String).length ≠ 2 := by decide

/-- C2 amended: `padStart(2, "0")` pads only strings shorter than two
characters; a captured port of two or more digits is carried into the
record unchanged, never truncated. -/
theorem C2_amended_no_truncation (line digits rest : String)
    (st : List ImportedUsbDevice × ImportedUsbDevice)
    (h : portMatch line = some (digits, rest)) (hlen : 2 ≤ digits.length) :
    ((importedStep st line).2).port = some digits := by
  have hpad : padStart2 digits = digits := by simp [padStart2, hlen]
  cases ht : strTruthy st.2.port <;> simp [importedStep, h, ht, hpad]

/-- C2 witness: instantiation at the header `Port 123:`. -/
theorem C2_amended_witness :
    ((importedStep ([], emptyImported)
        "Port 123: device in use at X").2).port = some "123" :=
  C2_amended_no_truncation "Port 123: device in use at X" "123" "X"
    ([], emptyImported) (by decide) (by decide)

/-- C3: the export parser emits exactly one device per line matching
the device-header pattern, and a header line that finds an open
accumulator first flushes exactly that one device and then opens a
fresh accumulator carrying the header captures. -/
theorem C3_header_flush_and_count :
    (∀ (output client : String),
      (parseUsbipOutput output client).length =
        (jsSplitLines output).countP (fun l => (busMatch l).isSome)) ∧
    (∀ (client : String) (devs : List UsbDevice) (d : UsbDevice)
        (line w b v p i : String), busMatch line = some (w, b, v, p, i) →
      exportStep client (devs, some d) line =
        (devs ++ [d],
         some { client := client, busId := b, vendor := v, product := p,
                path := "", deviceClass := "", interfaces := [] })) := by
  constructor
  · intro output client
    have h := exportRun_length client (jsSplitLines output) [] none
    simpa [parseUsbipOutput, parseUsbipLines] using h
  · intro client devs d line w b v p i h
    simp [exportStep, h]

/-- C3 witness: a concrete header line flushing a concrete open device. -/
theorem C3_witness :
    exportStep "host"
      ([], some { client := "host", busId := "2-2", vendor := "SanDisk",
                  product := "USB Flash Drive", path := "", deviceClass := "",
                  interfaces := [] })
      "  1-1 : Logitech : USB Optical Mouse (046d:c077)" =
    ([{ client := "host", busId := "2-2", vendor := "SanDisk",
        product := "USB Flash Drive", path := "", deviceClass := "",
        interfaces := [] }],
     some { client := "host", busId := "1-1", vendor := "Logitech",
            product := "USB Optical Mouse", path := "", deviceClass := "",
            interfaces := [] }) :=
  C3_header_flush_and_count.2 "host" []
    { client := "host", busId := "2-2", vendor := "SanDisk",
      product := "USB Flash Drive", path := "", deviceClass := "",
      interfaces := [] }
    "  1-1 : Logitech : USB Optical Mouse (046d:c077)"
    "  " "1-1" "Logitech" "USB Optical Mouse" "046d:c077" (by decide)

/-- C4: the scenario-B attached-port listing of spec section 8 parses
to exactly one record with every field as the spec states. -/
theorem C4_scenarioB :
    parseImportedUsbDevices scenarioBText = [scenarioBRecord] := by decide

/-- C5: a one-digit port header is zero-padded to 01, a two-digit one
is left as 12. -/
theorem C5_port_zero_padding :
    (parseImportedUsbDevices
        "Port 1: device in use at High Speed(480Mbps)").map (fun d => d.port) =
      [some "01"] ∧
    (parseImportedUsbDevices
        "Port 12: device in use at High Speed(480Mbps)").map (fun d => d.port) =
      [some "12"] := by decide

/-- C6 counterexample: a port header followed by no continuation line
before end of input, yet the emitted record has vendor present (set by
a continuation line that preceded the first header), refuting the
claim that such a record always has vendor absent. -/
theorem C6_counterexample :
    (parseImportedUsbDevices
        "       SanDisk : Cruzer Blade (0781:5567)\nPort 1: device in use at X").map
        (fun d => d.vendor) = [some "SanDisk"] ∧
    (some "SanDisk" : Option String) ≠ none := by decide

/-- C6 amended: a freshly opened record (port and speed set, every
other field absent) is still emitted first and unchanged when no
continuation line matches before the next port header or end of input;
and a parse whose input contains no port header at all emits nothing. -/
theorem C6_amended_partial_records :
    (∀ (p sp : String) (v : List String), p ≠ "" →
      (∀ l ∈ v.takeWhile (fun l2 => (portMatch l2).isNone),
        vendorMatch l = none ∧ urlMatch l = none ∧ busDevMatch l = none) →
      (importedFinish (importedRun
          ([], { port := some p, speed := some sp }) v)).head? =
        some { port := some p, speed := some sp }) ∧
    (∀ (lines : List String), (∀ l ∈ lines, portMatch l = none) →
      parseImportedLines lines = []) := by
  constructor
  · intro p sp v hp h
    exact importedRun_head_of_truthy v _ (by simp [strTruthy, hp]) h
  · intro lines h
    obtain ⟨h1, h2⟩ := importedRun_noheader lines emptyImported rfl h
    unfold parseImportedLines
    rcases hr : importedRun ([], emptyImported) lines with ⟨d1, c1⟩
    rw [hr] at h1 h2
    simp only at h1 h2
    simp [importedFinish, h1, h2, strTruthy]

/-- C6 witness: a fresh record survives a non-matching line, and a
header-free input parses to the empty list. -/
theorem C6_amended_witness :
    (importedFinish (importedRun
        ([], { port := some "01", speed := some "X" })
        ["unrecognized line"])).head? =
      some { port := some "01", speed := some "X" } ∧
    parseImportedLines ["       SanDisk : Cruzer Blade (0781:5567)"] = [] :=
  ⟨C6_amended_partial_records.1 "01" "X" ["unrecognized line"]
      (by decide) (by decide),
   C6_amended_partial_records.2 ["       SanDisk : Cruzer Blade (0781:5567)"]
      (by decide)⟩

/-- C7: every record the attached-port parser returns has both port
and speed defined; a record is flushed only once its port-header line
set them. -/
theorem C7_port_speed_invariant (output : String) (d : ImportedUsbDevice)
    (hd : d ∈ parseImportedUsbDevices output) :
    d.port.isSome = true ∧ d.speed.isSome = true :=
  importedRun_portSpeed (jsSplitLines output) [] emptyImported
    (by intro d2 h2; simp at h2)
    (by intro h; simp [emptyImported, strTruthy] at h) d hd

/-- C7 witness: the scenario-B record is in the scenario-B parse and
has port and speed defined. -/
theorem C7_witness :
    scenarioBRecord.port.isSome = true ∧ scenarioBRecord.speed.isSome = true :=
  C7_port_speed_invariant scenarioBText scenarioBRecord (by decide)

/-- C8: lines preceding the first device header, continuation lines
included, are dropped without effect: the parse of a header-free
prefix followed by any tail equals the parse of the tail alone (and
the parser is total, so no error is possible). -/
theorem C8_orphan_continuations_noop (client : String) (u v : List String)
    (h : ∀ l ∈ u, busMatch l = none) :
    parseUsbipLines client (u ++ v) = parseUsbipLines client v := by
  unfold parseUsbipLines
  have hsplit : exportRun client ([], none) (u ++ v) =
      exportRun client (exportRun client ([], none) u) v :=
    List.foldl_append _ _ _ _
  rw [hsplit, exportRun_nomatch client u h]

/-- C8 witness: an orphan path continuation before empty input yields
the empty parse. -/
theorem C8_witness :
    parseUsbipLines "192.168.1.100" (["        : /sys/devices/.../1-1"] ++ []) =
      parseUsbipLines "192.168.1.100" [] :=
  C8_orphan_continuations_noop "192.168.1.100"
    ["        : /sys/devices/.../1-1"] [] (by decide)

/-- C9: the aggregation loop of listDevices equals the concatenation,
in configured host order, of the per-host parses of the retrieved
(trimmed) text; failing hosts contribute nothing, the fold is total so
no error reaches the caller, and with three hosts whose second fails
only hosts one and three contribute, in that order. -/
theorem C9_aggregator_isolation :
    (∀ (results : List (String × Except String String)),
      listDevicesModel results = results.flatMap hostDevices) ∧
    (∀ (h1 h2 h3 t1 t3 e : String),
      listDevicesModel
          [(h1, Except.ok t1), (h2, Except.error e), (h3, Except.ok t3)] =
        parseUsbipOutput (jsTrim t1) h1 ++ parseUsbipOutput (jsTrim t3) h3) := by
  constructor
  · intro results
    simpa [listDevicesModel] using listDevicesModel_eq_flatMap results []
  · intro h1 h2 h3 t1 t3 e
    have h := listDevicesModel_eq_flatMap
      [(h1, Except.ok t1), (h2, Except.error e), (h3, Except.ok t3)] []
    simpa [listDevicesModel, hostDevices] using h

/-- C10: continuation lines before the first port header populate the
initial record, and because a header flushes only a record that
already has a port, those values are carried into the record opened by
the first header: the whole parse continues from the pre-header state
with only port and speed overwritten. -/
theorem C10_preheader_carry (u : List String) (hl : String) (v : List String)
    (dg r : String) (hu : ∀ l ∈ u, portMatch l = none)
    (hh : portMatch hl = some (dg, r)) :
    parseImportedLines (u ++ hl :: v) =
      importedFinish (importedRun
        ([], { (importedRun ([], emptyImported) u).2 with
               port := some (padStart2 dg), speed := some r }) v) := by
  obtain ⟨h1, h2⟩ := importedRun_noheader u emptyImported rfl hu
  unfold parseImportedLines
  have hsplit : importedRun ([], emptyImported) (u ++ hl :: v) =
      importedRun (importedRun ([], emptyImported) u) (hl :: v) :=
    List.foldl_append _ _ _ _
  rw [hsplit]
  rcases hr : importedRun ([], emptyImported) u with ⟨d1, c1⟩
  rw [hr] at h1 h2
  simp only at h1 h2
  subst h1
  have hstep : importedStep ([], c1) hl =
      ([], { c1 with port := some (padStart2 dg), speed := some r }) := by
    simp [importedStep, hh, h2, strTruthy]
  have hrun : importedRun ([], c1) (hl :: v) =
      importedRun
        ([], { c1 with port := some (padStart2 dg), speed := some r }) v := by
    show importedRun (importedStep ([], c1) hl) v = _
    rw [hstep]
  rw [hrun]

/-- C10 witness: a vendor continuation before the first header is
carried into the record the header opens. -/
theorem C10_witness :
    parseImportedLines
        ["       SanDisk : Cruzer Blade (0781:5567)",
         "Port 1: device in use at X"] =
      importedFinish (importedRun
        ([], { (importedRun ([], emptyImported)
                  ["       SanDisk : Cruzer Blade (0781:5567)"]).2 with
               port := some (padStart2 "1"), speed := some "X" }) []) :=
  C10_preheader_carry ["       SanDisk : Cruzer Blade (0781:5567)"]
    "Port 1: device in use at X" [] "1" "X" (by decide) (by decide)

end UsbipManager
